import Mathlib

/-!
# AuthCore — verification of the spec against a shallow embedding of the source

This file embeds the repository's own logic in Lean 4:

* `src/src/dev.ts` — the credential scheme detector (`detectAuthMode`), the
  authorization guard (`requireUser`, `requireAdmin`, `requireOrgRole`) and the
  `/dev/*` administrative operation façade (`registerDevEndpoints`), modelled as
  a total dispatcher `handleDev` over an explicit environment of delegate
  results and an explicit log of delegate calls.
* `netlify/functions/auth.ts` — the serverless transport adapter (`handler`,
  `allowOrigin`) with its Set-Cookie multi-value handling.
* `src/src/env.ts` — the trusted-origin list parsing.

JavaScript conventions are embedded explicitly: `x || d` on strings is `jsOr`
(empty string is falsy), `x || d` on numbers treats `0` as falsy, absent
values are `Option`, and an exception object `{status?, message}` is `Err`
with `status : Option Nat` so that `error.status || 500` is `Err.httpStatus`.
URLs are modelled as path-segment lists.
-/

namespace AuthCore

/-! ## Credential scheme detector (src/src/dev.ts lines 5-12) -/

/-- The `AuthMode` union type of dev.ts: `"cookie" | "apiKey" | "bearer"`. -/
inductive AuthMode where
  | cookie
  | apiKey
  | bearer
deriving DecidableEq, Repr

/-- The scheme tags the spec speaks about: the three schemes plus `"none"`.
Used only to compare the code's detector against the spec's contract. -/
inductive SchemeTag where
  | cookie
  | apiKey
  | bearer
  | noScheme
deriving DecidableEq, Repr

/-- Spec-side reading of an `AuthMode` value as a scheme tag. -/
def AuthMode.toTag : AuthMode → SchemeTag
  | AuthMode.cookie => SchemeTag.cookie
  | AuthMode.apiKey => SchemeTag.apiKey
  | AuthMode.bearer => SchemeTag.bearer

/-- The inbound header values `detectAuthMode` inspects (plus the cookie
header, which the detector never reads but the spec's presence notion uses).
An absent header is `none`. -/
structure RequestHeaders where
  xApiKey : Option String
  authorization : Option String
  cookie : Option String
deriving DecidableEq, Repr

/-- JavaScript truthiness of an optional string: present and non-empty. -/
def truthy : Option String → Bool
  | some s => s ≠ ""
  | none => false

/-- JavaScript `a.startsWith(p)`, written out on the character lists. -/
def charsStartWith : List Char → List Char → Bool
  | _, [] => true
  | [], _ :: _ => false
  | c :: cs, p :: ps => c = p && charsStartWith cs ps

/-- JavaScript `a.startsWith(p)` on strings. -/
def jsStartsWith (a p : String) : Bool := charsStartWith a.toList p.toList

/-- JavaScript `s.toLowerCase()`, written out per character. -/
def jsToLower (s : String) : String := String.mk (s.toList.map Char.toLower)

/-- `detectAuthMode` (dev.ts lines 8-12):
`headers["x-api-key"]` truthy ⟹ apiKey; else
`headers.authorization?.startsWith("Bearer ")` ⟹ bearer; else cookie. -/
def detectAuthMode (h : RequestHeaders) : AuthMode :=
  if truthy h.xApiKey then AuthMode.apiKey
  else if (match h.authorization with
           | some a => jsStartsWith a "Bearer "
           | none => false) then AuthMode.bearer
  else AuthMode.cookie

/-- An API-key credential is present: truthy `x-api-key` header. -/
def hasApiKey (h : RequestHeaders) : Bool := truthy h.xApiKey

/-- A bearer credential is present: `authorization` header with the
`Bearer ` prefix. -/
def hasBearer (h : RequestHeaders) : Bool :=
  match h.authorization with
  | some a => jsStartsWith a "Bearer "
  | none => false

/-- A cookie credential is present: truthy `cookie` header. -/
def hasCookie (h : RequestHeaders) : Bool := truthy h.cookie

/-- No credential scheme at all is present in the headers. -/
def noSchemePresent (h : RequestHeaders) : Bool :=
  !hasApiKey h && !hasBearer h && !hasCookie h

/-- A header set carrying no credential of any scheme. -/
def emptyHeaders : RequestHeaders :=
  { xApiKey := none, authorization := none, cookie := none }

/-! ## Authorization guard (src/src/dev.ts lines 23-55)

The guards call the external Identity Provider / Organization Directory
(`auth.api.getSession`, `auth.api.listOrganizations`). Those delegates are
embedded as explicit inputs: `Option Session` for the session lookup and
`Option (List OrgMembership)` for the membership listing (`none` is a
null/undefined delegate result). -/

/-- The user carried by a resolved session: id, email and global role
(`"admin"` for a global administrator). -/
structure User where
  id : String
  email : String
  role : String
deriving DecidableEq, Repr

/-- A resolved session, as returned by the Identity Provider. -/
structure Session where
  user : User
deriving DecidableEq, Repr

/-- The ad-hoc `{status, message}` exception shape thrown by the guards.
`status` is optional because untyped exceptions (e.g. a TypeError) carry no
status field; `error.status || 500` is `Err.httpStatus`. -/
structure Err where
  status : Option Nat
  message : String
deriving DecidableEq, Repr

/-- `error.status || 500` (dev.ts catch blocks). -/
def Err.httpStatus (e : Err) : Nat := e.status.getD 500

/-- `requireUser` (dev.ts lines 24-30): throws `{401, "Authentication
required"}` when the session lookup resolves no user. -/
def requireUser (session : Option Session) : Except Err Session :=
  match session with
  | some sess => Except.ok sess
  | none => Except.error { status := some 401, message := "Authentication required" }

/-- `requireAdmin` (dev.ts lines 32-38): `requireUser`, then throws
`{403, "Admin access required"}` unless the user's role is `"admin"`. -/
def requireAdmin (session : Option Session) : Except Err Session :=
  match requireUser session with
  | Except.error e => Except.error e
  | Except.ok sess =>
      if sess.user.role ≠ "admin" then
        Except.error { status := some 403, message := "Admin access required" }
      else Except.ok sess

/-- One entry of the `listOrganizations` result: an organization id and the
caller's role within it. -/
structure OrgMembership where
  id : String
  role : String
deriving DecidableEq, Repr

/-- `requireOrgRole` (dev.ts lines 40-55): `requireUser`, then
`organizations?.find(org => org.id === orgId && roles.includes(org.role))`;
throws `{403, "Insufficient organization permissions"}` when no entry
matches. -/
def requireOrgRole (session : Option Session)
    (organizations : Option (List OrgMembership))
    (orgId : String) (roles : List String) : Except Err Session :=
  match requireUser session with
  | Except.error e => Except.error e
  | Except.ok sess =>
      let membership :=
        match organizations with
        | some orgs =>
            orgs.find? (fun (org : OrgMembership) => org.id == orgId && roles.contains org.role)
        | none => none
      match membership with
      | some _ => Except.ok sess
      | none =>
          Except.error { status := some 403, message := "Insufficient organization permissions" }

/-! ## Administrative operation façade (src/src/dev.ts lines 57-399)

Each `/dev/*` route is embedded as a total function from the request and an
environment of delegate results to a response together with the list of
delegate calls performed, in order. The log makes "delegation happened"
observable, so the authorization invariant can be stated as: a mutating
delegate call appears in the log only when the principal was resolved. -/

/-- JavaScript `x || d` for an optional string: an absent or empty string
falls back to the default. -/
def jsOr (x : Option String) (d : String) : String :=
  match x with
  | some s => if s = "" then d else s
  | none => d

/-- JavaScript `x || d` for an optional number: absent or `0` falls back. -/
def jsOrNat (x : Option Nat) (d : Nat) : Nat :=
  match x with
  | some n => if n = 0 then d else n
  | none => d

/-- `body.expiresInDays ? body.expiresInDays * 24 * 60 * 60 : null`
(dev.ts line 137): seconds from days, `null` when absent or `0`. -/
def expiresInOf (days : Option Nat) : Option Nat :=
  match days with
  | some n => if n = 0 then none else some (n * 24 * 60 * 60)
  | none => none

/-- Collapse every whitespace run into a single `'-'`
(the `/\s+/g → "-"` replacement of dev.ts line 273). The boolean records
whether the previous character was whitespace, so a run emits one `'-'`. -/
def collapseWhitespace (prevWs : Bool) : List Char → List Char
  | [] => []
  | c :: rest =>
      if c.isWhitespace then
        if prevWs then collapseWhitespace true rest
        else '-' :: collapseWhitespace true rest
      else c :: collapseWhitespace false rest

/-- A character the slug keeps: `[a-z0-9-]` (dev.ts line 273). -/
def slugChar (c : Char) : Bool :=
  (('a' ≤ c && c ≤ 'z') || ('0' ≤ c && c ≤ '9') || c = '-')

/-- The slug derivation of dev.ts line 273:
`name.toLowerCase().replace(/\s+/g, '-').replace(/[^a-z0-9-]/g, '')`,
with `toLowerCase` written out per character. -/
def deriveSlug (name : String) : String :=
  String.mk ((collapseWhitespace false (name.toList.map Char.toLower)).filter slugChar)

/-- One delegate call out of the façade, with the arguments the façade
passes (the delegate's own behaviour stays external). -/
inductive DelegateCall where
  | getSession
  | listOrganizations
  | createApiKey (userId : String) (name : String) (expiresIn : Option Nat)
  | listApiKeys (userId : String)
  | deleteApiKey (keyId : String)
  | issueToken (audience : Option String) (expiresIn : Nat)
  | fetchJwks
  | createOrganization (name : String) (slug : String)
  | organizationInvite (organizationId : String) (email : Option String) (role : String)
  | updateMemberRole (organizationId : String) (memberId : String) (role : Option String)
  | getFullOrganization (organizationId : String)
  | listUsers (limit : Nat)
  | impersonateUser (userId : Option String)
deriving DecidableEq, Repr

/-- Whether a delegate call mutates Organization / Membership /
Service-Credential / Issued-Token / session state (the state the data-model
invariant of the spec is about); the rest are reads. -/
def DelegateCall.isMutation : DelegateCall → Bool
  | DelegateCall.createApiKey _ _ _ => true
  | DelegateCall.deleteApiKey _ => true
  | DelegateCall.issueToken _ _ => true
  | DelegateCall.createOrganization _ _ => true
  | DelegateCall.organizationInvite _ _ _ => true
  | DelegateCall.updateMemberRole _ _ _ => true
  | DelegateCall.impersonateUser _ => true
  | _ => false

/-- The result of `auth.api.createApiKey`. -/
structure ApiKeyResult where
  key : String
  id : String
  expiresAt : Option Nat
deriving DecidableEq, Repr

/-- The per-request environment: the results the external delegates would
return. The façade only forwards these; their content is external. -/
structure Env where
  /-- `auth.api.getSession` result: the resolved session or none. -/
  session : Option Session
  /-- `auth.api.listOrganizations` result (none = null/failed). -/
  organizations : Option (List OrgMembership)
  /-- `auth.api.createApiKey` result. -/
  apiKeyResult : ApiKeyResult
  /-- `auth.api.listApiKeys` result, opaque entries. -/
  keysResult : List ApiKeyResult
  /-- whether the `/api/auth/token` fetch of jwt/issue reports ok. -/
  tokenOk : Bool
  /-- the token the `/api/auth/token` fetch returns. -/
  tokenValue : String
  /-- whether the JWKS fetch reports ok. -/
  jwksOk : Bool
  /-- the JWKS document, opaque. -/
  jwksDocument : String
  /-- `auth.api.createOrganization` result, opaque. -/
  orgResult : String
  /-- `auth.api.organizationInvite` result, opaque. -/
  inviteResult : String
  /-- `auth.api.updateMemberRole` result, opaque. -/
  memberResult : String
  /-- `auth.api.getFullOrganization` members (none = null organization). -/
  fullOrgMembers : Option (List String)
  /-- `auth.api.listUsers` result, opaque. -/
  usersResult : List String
  /-- the session token minted by `auth.api.impersonateUser`. -/
  impersonationToken : String
  /-- `Date.now()`, milliseconds. -/
  now : Nat
deriving Repr

/-- The twelve routes `registerDevEndpoints` registers when enabled. -/
inductive DevRoute where
  | whoami
  | createApiKey
  | listApiKeys
  | deleteApiKey
  | jwtIssue
  | jwks
  | createOrg
  | addMember
  | updateMember
  | listMembers
  | adminUsers
  | impersonate
deriving DecidableEq, Repr

/-- An inbound `/dev/*` request: the matched route, the headers, and the
body / params / query fields the handlers read. Absent fields are `none`. -/
structure DevRequest where
  route : DevRoute
  headers : RequestHeaders
  bodyUserId : Option String
  bodyLabel : Option String
  bodyExpiresInDays : Option Nat
  bodyTtlSeconds : Option Nat
  bodyAudience : Option String
  bodyName : Option String
  bodyEmail : Option String
  bodyRole : Option String
  bodyAs : Option String
  paramKeyId : String
  paramOrgId : String
  paramUserId : String
  queryUserId : Option String
  queryLimit : Option Nat
deriving Repr

/-- The URL path of a request, as the segment list of the route pattern the
request matched (dev.ts registers `/dev/...` paths). -/
def routePath (req : DevRequest) : List String :=
  match req.route with
  | DevRoute.whoami => ["dev", "whoami"]
  | DevRoute.createApiKey => ["dev", "api-keys"]
  | DevRoute.listApiKeys => ["dev", "api-keys"]
  | DevRoute.deleteApiKey => ["dev", "api-keys", req.paramKeyId]
  | DevRoute.jwtIssue => ["dev", "jwt", "issue"]
  | DevRoute.jwks => ["dev", "jwks.json"]
  | DevRoute.createOrg => ["dev", "orgs"]
  | DevRoute.addMember => ["dev", "orgs", req.paramOrgId, "members"]
  | DevRoute.updateMember => ["dev", "orgs", req.paramOrgId, "members", req.paramUserId]
  | DevRoute.listMembers => ["dev", "orgs", req.paramOrgId, "members"]
  | DevRoute.adminUsers => ["dev", "admin", "users"]
  | DevRoute.impersonate => ["dev", "admin", "impersonate"]

/-- The response bodies the dev routes send, one constructor per reply
shape in dev.ts. -/
inductive ResBody where
  | err (message : String)
  | defaultNotFound
  | whoami (mode : AuthMode) (id : String) (email : String) (role : String)
      (memberships : List OrgMembership)
  | apiKeyCreated (key : String) (keyId : String) (userId : String)
      (label : Option String) (expiresAt : Option Nat)
  | keyList (keys : List ApiKeyResult)
  | success
  | tokenIssued (token : String) (expiresAt : Nat)
  | jwksDoc (document : String)
  | orgCreated (org : String)
  | memberAdded (member : String)
  | memberUpdated (member : String)
  | memberList (members : List String)
  | userList (users : List String)
  | impersonationToken (token : String)
  | impersonationCookieSet
deriving DecidableEq, Repr

/-- An outbound response: status, body, and an optional `set-cookie` header. -/
structure DevResponse where
  status : Nat
  body : ResBody
  setCookie : Option String
deriving DecidableEq, Repr

/-- The catch-block response of every dev route:
`reply.status(error.status || 500).send({ error: error.message })`. -/
def errResponse (e : Err) : DevResponse :=
  { status := e.httpStatus, body := ResBody.err e.message, setCookie := none }

/-- A 200 response with no cookie (`reply.send(...)`). -/
def okResponse (b : ResBody) : DevResponse :=
  { status := 200, body := b, setCookie := none }

/-- `GET /dev/whoami` (dev.ts lines 95-116). -/
def handleWhoami (env : Env) (req : DevRequest) : DevResponse × List DelegateCall :=
  match requireUser env.session with
  | Except.error e => (errResponse e, [DelegateCall.getSession])
  | Except.ok sess =>
      let mode := detectAuthMode req.headers
      let organizations := env.organizations.getD []
      (okResponse (ResBody.whoami mode sess.user.id sess.user.email sess.user.role organizations),
       [DelegateCall.getSession, DelegateCall.listOrganizations])

/-- `POST /dev/api-keys` (dev.ts lines 119-151): self-or-admin check on the
target user, then `auth.api.createApiKey`. -/
def handleCreateApiKey (env : Env) (req : DevRequest) : DevResponse × List DelegateCall :=
  match requireUser env.session with
  | Except.error e => (errResponse e, [DelegateCall.getSession])
  | Except.ok sess =>
      let targetUserId := jsOr req.bodyUserId sess.user.id
      if targetUserId ≠ sess.user.id ∧ sess.user.role ≠ "admin" then
        ({ status := 403, body := ResBody.err "Can only create API keys for yourself or as admin",
           setCookie := none }, [DelegateCall.getSession])
      else
        let result := env.apiKeyResult
        (okResponse (ResBody.apiKeyCreated result.key result.id targetUserId req.bodyLabel
            result.expiresAt),
         [DelegateCall.getSession,
          DelegateCall.createApiKey targetUserId (jsOr req.bodyLabel "Dev API Key")
            (expiresInOf req.bodyExpiresInDays)])

/-- `GET /dev/api-keys` (dev.ts lines 154-176). -/
def handleListApiKeys (env : Env) (req : DevRequest) : DevResponse × List DelegateCall :=
  match requireUser env.session with
  | Except.error e => (errResponse e, [DelegateCall.getSession])
  | Except.ok sess =>
      let targetUserId := jsOr req.queryUserId sess.user.id
      if targetUserId ≠ sess.user.id ∧ sess.user.role ≠ "admin" then
        ({ status := 403, body := ResBody.err "Can only list your own API keys or as admin",
           setCookie := none }, [DelegateCall.getSession])
      else
        (okResponse (ResBody.keyList env.keysResult),
         [DelegateCall.getSession, DelegateCall.listApiKeys targetUserId])

/-- `DELETE /dev/api-keys/:keyId` (dev.ts lines 179-194): no façade-side
ownership check; the delete is delegated directly. -/
def handleDeleteApiKey (env : Env) (req : DevRequest) : DevResponse × List DelegateCall :=
  match requireUser env.session with
  | Except.error e => (errResponse e, [DelegateCall.getSession])
  | Except.ok _ =>
      (okResponse ResBody.success,
       [DelegateCall.getSession, DelegateCall.deleteApiKey req.paramKeyId])

/-- `POST /dev/jwt/issue` (dev.ts lines 197-242): self-or-admin check, then
a token fetch against `/api/auth/token`; a non-ok fetch yields the thrown
`{400, "Failed to create JWT token"}`. -/
def handleJwtIssue (env : Env) (req : DevRequest) : DevResponse × List DelegateCall :=
  match requireUser env.session with
  | Except.error e => (errResponse e, [DelegateCall.getSession])
  | Except.ok sess =>
      let targetUserId := jsOr req.bodyUserId sess.user.id
      if targetUserId ≠ sess.user.id ∧ sess.user.role ≠ "admin" then
        ({ status := 403, body := ResBody.err "Can only issue JWT for yourself or as admin",
           setCookie := none }, [DelegateCall.getSession])
      else
        let ttl := jsOrNat req.bodyTtlSeconds 1800
        let expiresAt := env.now + ttl * 1000
        let log := [DelegateCall.getSession, DelegateCall.issueToken req.bodyAudience ttl]
        if env.tokenOk then
          (okResponse (ResBody.tokenIssued env.tokenValue expiresAt), log)
        else
          (errResponse { status := some 400, message := "Failed to create JWT token" }, log)

/-- `GET /dev/jwks.json` (dev.ts lines 245-260): public proxy of the
delegate's JWKS document; a non-ok fetch yields the thrown `{500, ...}`. -/
def handleJwks (env : Env) : DevResponse × List DelegateCall :=
  if env.jwksOk then
    (okResponse (ResBody.jwksDoc env.jwksDocument), [DelegateCall.fetchJwks])
  else
    (errResponse { status := some 500, message := "Failed to fetch JWKS" },
     [DelegateCall.fetchJwks])

/-- `POST /dev/orgs` (dev.ts lines 263-281): no input validation; an absent
`body.name` makes `body.name.toLowerCase()` throw a status-less TypeError,
caught as a 500 by the route's catch block. -/
def handleCreateOrg (env : Env) (req : DevRequest) : DevResponse × List DelegateCall :=
  match requireUser env.session with
  | Except.error e => (errResponse e, [DelegateCall.getSession])
  | Except.ok _ =>
      match req.bodyName with
      | none =>
          (errResponse
             { status := none,
               message := "Cannot read properties of undefined (reading toLowerCase)" },
           [DelegateCall.getSession])
      | some name =>
          (okResponse (ResBody.orgCreated env.orgResult),
           [DelegateCall.getSession, DelegateCall.createOrganization name (deriveSlug name)])

/-- `POST /dev/orgs/:orgId/members` (dev.ts lines 284-305). -/
def handleAddMember (env : Env) (req : DevRequest) : DevResponse × List DelegateCall :=
  match requireOrgRole env.session env.organizations req.paramOrgId ["owner", "admin"] with
  | Except.error e => (errResponse e, [DelegateCall.getSession])
  | Except.ok _ =>
      (okResponse (ResBody.memberAdded env.inviteResult),
       [DelegateCall.getSession, DelegateCall.listOrganizations,
        DelegateCall.organizationInvite req.paramOrgId req.bodyEmail (jsOr req.bodyRole "member")])

/-- `PATCH /dev/orgs/:orgId/members/:userId` (dev.ts lines 308-329). -/
def handleUpdateMember (env : Env) (req : DevRequest) : DevResponse × List DelegateCall :=
  match requireOrgRole env.session env.organizations req.paramOrgId ["owner", "admin"] with
  | Except.error e => (errResponse e, [DelegateCall.getSession])
  | Except.ok _ =>
      (okResponse (ResBody.memberUpdated env.memberResult),
       [DelegateCall.getSession, DelegateCall.listOrganizations,
        DelegateCall.updateMemberRole req.paramOrgId req.paramUserId req.bodyRole])

/-- `GET /dev/orgs/:orgId/members` (dev.ts lines 332-350). -/
def handleListMembers (env : Env) (req : DevRequest) : DevResponse × List DelegateCall :=
  match requireOrgRole env.session env.organizations req.paramOrgId
      ["owner", "admin", "member"] with
  | Except.error e => (errResponse e, [DelegateCall.getSession])
  | Except.ok _ =>
      (okResponse (ResBody.memberList (env.fullOrgMembers.getD [])),
       [DelegateCall.getSession, DelegateCall.listOrganizations,
        DelegateCall.getFullOrganization req.paramOrgId])

/-- `GET /dev/admin/users` (dev.ts lines 353-370). -/
def handleAdminUsers (env : Env) (req : DevRequest) : DevResponse × List DelegateCall :=
  match requireAdmin env.session with
  | Except.error e => (errResponse e, [DelegateCall.getSession])
  | Except.ok _ =>
      (okResponse (ResBody.userList env.usersResult),
       [DelegateCall.getSession, DelegateCall.listUsers (jsOrNat req.queryLimit 50)])

/-- `POST /dev/admin/impersonate` (dev.ts lines 373-396): admin only; mode
`"jwt"` returns the raw token, anything else sets the session cookie. -/
def handleImpersonate (env : Env) (req : DevRequest) : DevResponse × List DelegateCall :=
  match requireAdmin env.session with
  | Except.error e => (errResponse e, [DelegateCall.getSession])
  | Except.ok _ =>
      let log := [DelegateCall.getSession, DelegateCall.impersonateUser req.bodyUserId]
      if req.bodyAs = some "jwt" then
        (okResponse (ResBody.impersonationToken env.impersonationToken), log)
      else
        ({ status := 200, body := ResBody.impersonationCookieSet,
           setCookie := some ("better-auth.session_token=" ++ env.impersonationToken ++
             "; Path=/; HttpOnly; SameSite=lax; Max-Age=604800") }, log)

/-- Route dispatch of the enabled dev sub-application. -/
def dispatch (env : Env) (req : DevRequest) : DevResponse × List DelegateCall :=
  match req.route with
  | DevRoute.whoami => handleWhoami env req
  | DevRoute.createApiKey => handleCreateApiKey env req
  | DevRoute.listApiKeys => handleListApiKeys env req
  | DevRoute.deleteApiKey => handleDeleteApiKey env req
  | DevRoute.jwtIssue => handleJwtIssue env req
  | DevRoute.jwks => handleJwks env
  | DevRoute.createOrg => handleCreateOrg env req
  | DevRoute.addMember => handleAddMember env req
  | DevRoute.updateMember => handleUpdateMember env req
  | DevRoute.listMembers => handleListMembers env req
  | DevRoute.adminUsers => handleAdminUsers env req
  | DevRoute.impersonate => handleImpersonate env req

/-- `registerDevEndpoints` (dev.ts lines 58-399) as a request pipeline.

Disabled (`!devEnabled`, lines 61-73): no dev route is registered and a
hook answers every url under `/dev` with `404 {error: "Not found"}`; a url
outside `/dev` matches no route of this registration either and falls to
the framework's default 404.

Enabled (lines 78-92): the `preHandler` hook skips authentication exactly
for the url `/dev/jwks.json` and otherwise replies with the `requireUser`
failure before any handler runs. -/
def handleDev (devEnabled : Bool) (env : Env) (req : DevRequest) :
    DevResponse × List DelegateCall :=
  if devEnabled then
    if routePath req = ["dev", "jwks.json"] then dispatch env req
    else
      match requireUser env.session with
      | Except.error e => (errResponse e, [DelegateCall.getSession])
      | Except.ok _ => dispatch env req
  else
    if (routePath req).head? = some "dev" then
      ({ status := 404, body := ResBody.err "Not found", setCookie := none }, [])
    else
      ({ status := 404, body := ResBody.defaultNotFound, setCookie := none }, [])

/-! ## Trusted origins (src/src/env.ts lines 35-38)

`env.TRUSTED_ORIGINS.split(",").map(s => s.trim()).filter(Boolean)`,
embedded with the JavaScript string primitives written out on `List Char`. -/

/-- JavaScript `str.split(",")`: split at every comma; an empty string
yields one empty piece. -/
def splitOnComma : List Char → List (List Char)
  | [] => [[]]
  | c :: rest =>
      if c = ',' then [] :: splitOnComma rest
      else
        match splitOnComma rest with
        | [] => [[c]]
        | piece :: pieces => (c :: piece) :: pieces

/-- JavaScript `str.trim()`: strip leading and trailing whitespace. -/
def jsTrim (s : List Char) : List Char :=
  ((s.dropWhile Char.isWhitespace).reverse.dropWhile Char.isWhitespace).reverse

/-- `trustedOrigins` of env.ts: split on commas, trim each piece, drop the
falsy (empty) pieces. -/
def parseTrustedOrigins (s : String) : List String :=
  (((splitOnComma s.toList).map (fun cs => String.mk (jsTrim cs))).filter
    (fun x => x ≠ ""))

/-! ## Serverless transport adapter (netlify/functions/auth.ts) -/

/-- `allowOrigin` (auth.ts lines 5-8): echo the request origin when it is
in the trusted list, else the first trusted origin, else `"*"`; an absent
or empty (falsy) origin goes straight to the fallback. -/
def allowOrigin (trusted : List String) (origin : Option String) : String :=
  match origin with
  | none => (trusted.head?).getD "*"
  | some o =>
      if o = "" then (trusted.head?).getD "*"
      else if trusted.contains o then o else (trusted.head?).getD "*"

/-- The inbound serverless event fields the handler reads. -/
structure NetlifyEvent where
  httpMethod : String
  /-- `event.headers.origin` -/
  originHeader : Option String
deriving DecidableEq, Repr

/-- The framework handler's response: status, headers (as the ordered pairs
`Headers.forEach` yields, names lowercased by the fetch API), body text. -/
structure DelegateResponse where
  status : Nat
  headers : List (String × String)
  bodyText : String
deriving DecidableEq, Repr

/-- The serverless result object: single-valued headers, the optional
multi-value header object, and the body. `multiValueHeaders` is the
JavaScript object `{ "Set-Cookie": [...] }` or `undefined`. -/
structure NetlifyResult where
  statusCode : Nat
  headers : List (String × String)
  multiValueHeaders : Option (List (String × List String))
  bodyText : String
deriving DecidableEq, Repr

/-- JavaScript object assignment `obj[k] = v` on an ordered key-value list:
overwrite in place when the key exists, else append. -/
def setHeader (hs : List (String × String)) (k v : String) : List (String × String) :=
  if hs.any (fun kv => kv.1 == k) then
    hs.map (fun kv => if kv.1 == k then (k, v) else kv)
  else hs ++ [(k, v)]

/-- Object key lookup on the ordered key-value list. -/
def lookupHeader (hs : List (String × String)) (k : String) : Option String :=
  (hs.find? (fun kv => kv.1 == k)).map Prod.snd

/-- The two headers `singleHeaders` starts from (auth.ts lines 39-42). -/
def corsBaseHeaders (trusted : List String) (origin : Option String) :
    List (String × String) :=
  [("Access-Control-Allow-Origin", allowOrigin trusted origin),
   ("Access-Control-Allow-Credentials", "true")]

/-- One step of the `res.headers.forEach` loop (auth.ts lines 45-51): a
`set-cookie` header is pushed onto the cookie list, anything else is
assigned into `singleHeaders`. -/
def forEachStep (acc : List (String × String) × List String) (kv : String × String) :
    List (String × String) × List String :=
  if jsToLower kv.1 == "set-cookie" then (acc.1, acc.2 ++ [kv.2])
  else (setHeader acc.1 kv.1 kv.2, acc.2)

/-- The `handler` of netlify/functions/auth.ts, given the delegate response
`res` the framework returned for the forwarded request. The OPTIONS branch
(lines 12-23) answers the CORS preflight directly; otherwise (lines 39-59)
the response headers are folded into `singleHeaders` plus the Set-Cookie
list, and `multiValueHeaders` is set only when at least one cookie was
seen. -/
def netlifyHandler (trusted : List String) (event : NetlifyEvent)
    (res : DelegateResponse) : NetlifyResult :=
  if event.httpMethod == "OPTIONS" then
    { statusCode := 200,
      headers := corsBaseHeaders trusted event.originHeader ++
        [("Access-Control-Allow-Methods", "GET,POST,PUT,DELETE,OPTIONS"),
         ("Access-Control-Allow-Headers",
          "Content-Type, Authorization, X-Requested-With, x-api-key")],
      multiValueHeaders := none,
      bodyText := "" }
  else
    let folded := res.headers.foldl forEachStep
      (corsBaseHeaders trusted event.originHeader, [])
    { statusCode := res.status,
      headers := folded.1,
      multiValueHeaders :=
        if folded.2.isEmpty then none else some [("Set-Cookie", folded.2)],
      bodyText := res.bodyText }

/-- The `set-cookie` values of a header list, in order. -/
def cookieValues (hs : List (String × String)) : List String :=
  (hs.filter (fun kv => jsToLower kv.1 == "set-cookie")).map Prod.snd

/-! ## Theorems -/

/-- A header set presenting both an API-key credential and a bearer
credential (and, for good measure, a cookie). -/
def allSchemesHeaders : RequestHeaders :=
  { xApiKey := some "sk-test-123",
    authorization := some "Bearer eyJtoken",
    cookie := some "better-auth.session_token=abc" }

/-- The three selection cases of the detector, as one helper lemma. -/
theorem detect_cases (h : RequestHeaders) :
    (hasApiKey h = true → detectAuthMode h = AuthMode.apiKey)
    ∧ (hasApiKey h = false → hasBearer h = true → detectAuthMode h = AuthMode.bearer)
    ∧ (hasApiKey h = false → hasBearer h = false → detectAuthMode h = AuthMode.cookie) := by
  unfold detectAuthMode hasApiKey hasBearer
  refine ⟨fun h1 => ?_, fun h1 h2 => ?_, fun h1 h2 => ?_⟩ <;>
    simp [h1] <;> simp [h2]

/-- C2: the credential scheme detector applies the fixed total precedence
api-key over bearer over cookie: whenever an API-key header is present the
api-key scheme is selected (in particular when a bearer header is present
too), a bearer header wins over everything but an API key, and the cookie
scheme is selected only when neither of the others is present. -/
theorem detect_precedence_total_order (h : RequestHeaders) :
    (hasApiKey h = true → detectAuthMode h = AuthMode.apiKey)
    ∧ (hasApiKey h = false → hasBearer h = true → detectAuthMode h = AuthMode.bearer)
    ∧ (hasApiKey h = false → hasBearer h = false → detectAuthMode h = AuthMode.cookie) :=
  detect_cases h

/-- Witness for C2: at the concrete header set carrying all three
credentials at once, the api-key scheme is selected. -/
theorem detect_precedence_total_order_witness :
    hasApiKey allSchemesHeaders = true ∧ hasBearer allSchemesHeaders = true ∧
    hasCookie allSchemesHeaders = true ∧
    detectAuthMode allSchemesHeaders = AuthMode.apiKey :=
  ⟨by decide, by decide, by decide,
   (detect_precedence_total_order allSchemesHeaders).1 (by decide)⟩

/-- C3 counterexample: at the header set carrying no credential at all, the
detector does not return a "none" tag — its codomain has no such tag — but
classifies the request as the `cookie` scheme. -/
theorem detect_none_counterexample :
    noSchemePresent emptyHeaders = true ∧
    (detectAuthMode emptyHeaders).toTag = SchemeTag.cookie ∧
    (detectAuthMode emptyHeaders).toTag ≠ SchemeTag.noScheme := by
  refine ⟨by decide, by decide, by decide⟩

/-- C3 as amended: the detector totally returns exactly one tag from
{cookie, api-key, bearer} — there is no fourth "none" output — and for
every header set in which none of the three credential schemes is present
it returns the `cookie` tag as the default; absence of a principal is then
established downstream by the Identity Provider's failed session lookup,
not by the detector. -/
theorem detect_default_cookie (h : RequestHeaders) :
    (detectAuthMode h = AuthMode.cookie ∨ detectAuthMode h = AuthMode.apiKey
      ∨ detectAuthMode h = AuthMode.bearer)
    ∧ (noSchemePresent h = true → detectAuthMode h = AuthMode.cookie) := by
  constructor
  · cases detectAuthMode h <;> simp
  · intro hn
    unfold noSchemePresent at hn
    simp only [Bool.and_eq_true, Bool.not_eq_true'] at hn
    exact (detect_cases h).2.2 hn.1.1 hn.1.2

/-- Witness for C3 (amended): the credential-free header set is detected as
the `cookie` scheme. -/
theorem detect_default_cookie_witness :
    noSchemePresent emptyHeaders = true ∧ detectAuthMode emptyHeaders = AuthMode.cookie :=
  ⟨by decide, (detect_default_cookie emptyHeaders).2 (by decide)⟩

/-- C4: for an authenticated principal, `requireOrgRole` succeeds exactly
when the membership listing has an entry for the target organization whose
role is in the allowed set; in every other case — no membership in that
organization, or a membership whose role is outside the allowed set — it
fails with the 403 Forbidden error. -/
theorem requireOrgRole_forbidden_iff (sess : Session) (orgs : List OrgMembership)
    (orgId : String) (roles : List String) :
    (requireOrgRole (some sess) (some orgs) orgId roles = Except.ok sess
      ↔ ∃ m ∈ orgs, m.id = orgId ∧ m.role ∈ roles)
    ∧ ((¬ ∃ m ∈ orgs, m.id = orgId ∧ m.role ∈ roles) →
      requireOrgRole (some sess) (some orgs) orgId roles =
        Except.error { status := some 403,
                       message := "Insufficient organization permissions" }) := by
  have hb : ∀ m : OrgMembership,
      ((m.id == orgId && roles.contains m.role) = true) ↔ (m.id = orgId ∧ m.role ∈ roles) := by
    intro m
    rw [Bool.and_eq_true, beq_iff_eq]
    constructor
    · rintro ⟨h1, h2⟩; exact ⟨h1, by simpa [List.contains] using h2⟩
    · rintro ⟨h1, h2⟩; exact ⟨h1, by simpa [List.contains] using h2⟩
  cases hf : orgs.find? (fun org => org.id == orgId && roles.contains org.role) with
  | some m =>
      have hp0 := List.find?_some hf
      have hp := (hb m).mp (by simpa using hp0)
      have hm := List.mem_of_find?_eq_some hf
      have hval : requireOrgRole (some sess) (some orgs) orgId roles = Except.ok sess := by
        unfold requireOrgRole requireUser
        simp only [hf]
      refine ⟨?_, ?_⟩
      · rw [hval]; exact ⟨fun _ => ⟨m, hm, hp⟩, fun _ => rfl⟩
      · intro hex; exact absurd ⟨m, hm, hp⟩ hex
  | none =>
      have hnone := List.find?_eq_none.mp hf
      have hval : requireOrgRole (some sess) (some orgs) orgId roles =
          Except.error { status := some 403,
                         message := "Insufficient organization permissions" } := by
        unfold requireOrgRole requireUser
        simp only [hf]
      refine ⟨?_, fun _ => hval⟩
      rw [hval]
      constructor
      · intro heq; cases heq
      · rintro ⟨m, hm, hmm⟩
        exact absurd ((hb m).mpr hmm) (by simpa using hnone m hm)

/-- Witness for C4: a concrete member whose role `"member"` is outside the
allowed set {owner, admin} is rejected with 403, and the same member is
accepted when `"member"` is allowed. -/
theorem requireOrgRole_forbidden_iff_witness :
    requireOrgRole (some { user := { id := "u1", email := "a@b.c", role := "user" } })
        (some [{ id := "org1", role := "member" }]) "org1" ["owner", "admin"] =
      Except.error { status := some 403,
                     message := "Insufficient organization permissions" } ∧
    requireOrgRole (some { user := { id := "u1", email := "a@b.c", role := "user" } })
        (some [{ id := "org1", role := "member" }]) "org1" ["owner", "admin", "member"] =
      Except.ok { user := { id := "u1", email := "a@b.c", role := "user" } } :=
  ⟨(requireOrgRole_forbidden_iff { user := { id := "u1", email := "a@b.c", role := "user" } }
      [{ id := "org1", role := "member" }] "org1" ["owner", "admin"]).2 (by decide),
   (requireOrgRole_forbidden_iff { user := { id := "u1", email := "a@b.c", role := "user" } }
      [{ id := "org1", role := "member" }] "org1" ["owner", "admin", "member"]).1.mpr
     (by decide)⟩

/-- The matched route determines whether the url is the JWKS exemption. -/
theorem routePath_eq_jwks_iff (req : DevRequest) :
    routePath req = ["dev", "jwks.json"] ↔ req.route = DevRoute.jwks := by
  cases hr : req.route <;> simp [routePath, hr]

/-- A request to route `r` with no credentials, no body fields and fixed
path parameters. -/
def blankReq (r : DevRoute) : DevRequest :=
  { route := r, headers := emptyHeaders,
    bodyUserId := none, bodyLabel := none, bodyExpiresInDays := none,
    bodyTtlSeconds := none, bodyAudience := none, bodyName := none,
    bodyEmail := none, bodyRole := none, bodyAs := none,
    paramKeyId := "k1", paramOrgId := "o1", paramUserId := "u2",
    queryUserId := none, queryLimit := none }

/-- An environment whose session lookup resolves no principal. -/
def noSessionEnv : Env :=
  { session := none, organizations := none,
    apiKeyResult := { key := "sk-new", id := "key1", expiresAt := none },
    keysResult := [], tokenOk := true, tokenValue := "tok",
    jwksOk := true, jwksDocument := "jwksdoc", orgResult := "org",
    inviteResult := "member", memberResult := "member2",
    fullOrgMembers := none, usersResult := [], impersonationToken := "imp",
    now := 0 }

/-- A non-admin user and the environment resolving them. -/
def devUser : Session := { user := { id := "u1", email := "a@b.c", role := "user" } }

/-- `noSessionEnv` with the session lookup resolving `devUser`. -/
def userEnv : Env := { noSessionEnv with session := some devUser }

/-- C6: with the enabling flag false, every request to a `/dev/*` route —
the JWKS mirror included — gets HTTP 404, and no delegate call of any kind
is made. -/
theorem devDisabled_all_404 (env : Env) (req : DevRequest) :
    (handleDev false env req).1.status = 404 ∧ (handleDev false env req).2 = [] := by
  by_cases h : (routePath req).head? = some "dev" <;> simp [handleDev, h]

/-- C7: with the surface enabled and a request resolving no principal,
every route but the JWKS mirror answers 401 Unauthenticated out of the
`preHandler` hook, before any route handler runs; `GET /dev/jwks.json`
ignores the absent principal and (the delegate fetch succeeding) returns
the key set with status 200. -/
theorem devEnabled_auth_exemption (env : Env) (req : DevRequest)
    (hs : env.session = none) :
    (req.route ≠ DevRoute.jwks →
      (handleDev true env req).1 =
        { status := 401, body := ResBody.err "Authentication required", setCookie := none } ∧
      (handleDev true env req).2 = [DelegateCall.getSession])
    ∧ (req.route = DevRoute.jwks → env.jwksOk = true →
      (handleDev true env req).1 = okResponse (ResBody.jwksDoc env.jwksDocument)) := by
  constructor
  · intro hne
    have hpath : ¬ routePath req = ["dev", "jwks.json"] := fun hc =>
      hne ((routePath_eq_jwks_iff req).mp hc)
    refine ⟨?_, ?_⟩ <;> simp [handleDev, hpath, requireUser, hs, errResponse, Err.httpStatus]
  · intro he hj
    have hpath : routePath req = ["dev", "jwks.json"] :=
      (routePath_eq_jwks_iff req).mpr he
    simp [handleDev, hpath, dispatch, he, handleJwks, hj, okResponse]

/-- Witness for C7: with no credentials, `/dev/whoami` is 401 while
`/dev/jwks.json` is 200. -/
theorem devEnabled_auth_exemption_witness :
    (handleDev true noSessionEnv (blankReq DevRoute.whoami)).1.status = 401 ∧
    (handleDev true noSessionEnv (blankReq DevRoute.jwks)).1.status = 200 := by
  constructor
  · rw [((devEnabled_auth_exemption noSessionEnv (blankReq DevRoute.whoami) rfl).1
      (by decide)).1]
  · rw [(devEnabled_auth_exemption noSessionEnv (blankReq DevRoute.jwks) rfl).2 rfl rfl]
    rfl

/-- C1: no mutating delegation without a resolved principal — whenever the
delegate-call log of any request, on any route, enabled or not, contains a
call that mutates Organization / Membership / Service-Credential /
Issued-Token / session state, the session lookup had resolved a principal
(so `requireUser`, which every mutating route runs directly or via
`requireAdmin` / `requireOrgRole` before delegating, succeeded). -/
theorem mutation_requires_resolved_principal (devEnabled : Bool) (env : Env)
    (req : DevRequest)
    (hmut : ∃ c ∈ (handleDev devEnabled env req).2, c.isMutation = true) :
    ∃ sess, env.session = some sess ∧ requireUser env.session = Except.ok sess := by
  cases henv : env.session with
  | some sess => exact ⟨sess, rfl, by simp [requireUser, henv]⟩
  | none =>
      exfalso
      obtain ⟨c, hc, hm⟩ := hmut
      cases devEnabled with
      | false =>
          have hlog : (handleDev false env req).2 = [] := by
            by_cases h : (routePath req).head? = some "dev" <;> simp [handleDev, h]
          rw [hlog] at hc
          exact absurd hc (List.not_mem_nil c)
      | true =>
          by_cases hp : routePath req = ["dev", "jwks.json"]
          · have hr : req.route = DevRoute.jwks := (routePath_eq_jwks_iff req).mp hp
            have hlog : (handleDev true env req).2 = [DelegateCall.fetchJwks] := by
              cases hj : env.jwksOk <;>
                simp [handleDev, hp, dispatch, hr, handleJwks, hj]
            rw [hlog] at hc
            rw [List.mem_singleton.mp hc] at hm
            exact absurd hm (by decide)
          · have hlog : (handleDev true env req).2 = [DelegateCall.getSession] := by
              simp [handleDev, hp, requireUser, henv]
            rw [hlog] at hc
            rw [List.mem_singleton.mp hc] at hm
            exact absurd hm (by decide)

/-- Witness for C1: revoking a key at a concrete request does log a
mutating delegation, so the theorem yields the resolved principal. -/
theorem mutation_requires_resolved_principal_witness :
    ∃ sess, userEnv.session = some sess ∧ requireUser userEnv.session = Except.ok sess :=
  mutation_requires_resolved_principal true userEnv (blankReq DevRoute.deleteApiKey)
    ⟨DelegateCall.deleteApiKey "k1", by decide, by decide⟩

/-- C5: create-service-identity. For an authenticated caller, when the
requested target user (`body.userId` defaulted to the caller) differs from
the caller and the caller is not a global admin, the route answers 403 with
nothing delegated beyond the session lookup; when the target is the caller
themselves, it succeeds, the key is minted for the caller (the delegate
receives the caller's id as owner) and the response's owner field equals
the caller's id. -/
theorem createApiKey_self_or_admin (env : Env) (req : DevRequest) (sess : Session)
    (hs : env.session = some sess) (hr : req.route = DevRoute.createApiKey) :
    (jsOr req.bodyUserId sess.user.id ≠ sess.user.id → sess.user.role ≠ "admin" →
      (handleDev true env req).1.status = 403 ∧
      (handleDev true env req).2 = [DelegateCall.getSession])
    ∧ (jsOr req.bodyUserId sess.user.id = sess.user.id →
      (handleDev true env req).1 =
        okResponse (ResBody.apiKeyCreated env.apiKeyResult.key env.apiKeyResult.id
          sess.user.id req.bodyLabel env.apiKeyResult.expiresAt) ∧
      (handleDev true env req).2 =
        [DelegateCall.getSession,
         DelegateCall.createApiKey sess.user.id (jsOr req.bodyLabel "Dev API Key")
           (expiresInOf req.bodyExpiresInDays)]) := by
  have hpath : ¬ routePath req = ["dev", "jwks.json"] := by
    intro hc
    have h2 := (routePath_eq_jwks_iff req).mp hc
    rw [hr] at h2
    cases h2
  have hd : handleDev true env req = handleCreateApiKey env req := by
    simp [handleDev, hpath, requireUser, hs, dispatch, hr]
  constructor
  · intro hne hnadmin
    rw [hd]
    unfold handleCreateApiKey
    simp [requireUser, hs, hne, hnadmin]
  · intro heq
    rw [hd]
    unfold handleCreateApiKey
    simp [requireUser, hs, heq, okResponse]

/-- Witness for C5: the non-admin `devUser` asking a key for `"u9"` gets
403; asking one with no target (default: self) succeeds with their own id
as owner. -/
theorem createApiKey_self_or_admin_witness :
    (handleDev true userEnv
        { blankReq DevRoute.createApiKey with bodyUserId := some "u9" }).1.status = 403 ∧
    (handleDev true userEnv (blankReq DevRoute.createApiKey)).1 =
      okResponse (ResBody.apiKeyCreated "sk-new" "key1" "u1" none none) :=
  ⟨((createApiKey_self_or_admin userEnv
      { blankReq DevRoute.createApiKey with bodyUserId := some "u9" } devUser rfl rfl).1
      (by decide) (by decide)).1,
   ((createApiKey_self_or_admin userEnv (blankReq DevRoute.createApiKey) devUser rfl
      rfl).2 (by decide)).1⟩

/-- C8 counterexample: create-organization does not validate the name. At a
concrete authenticated request with the name missing, the route answers 500
(the caught status-less TypeError from `body.name.toLowerCase()`), not the
claimed 400; and at a request whose name is the empty string, the operation
delegates `createOrganization` to the Organization Directory (with empty
name and slug) instead of failing InvalidInput before delegating. -/
theorem createOrg_no_validation_counterexample :
    (handleDev true userEnv (blankReq DevRoute.createOrg)).1.status = 500 ∧
    (handleDev true userEnv (blankReq DevRoute.createOrg)).1.status ≠ 400 ∧
    (handleDev true userEnv
        { blankReq DevRoute.createOrg with bodyName := some "" }).1.status = 200 ∧
    DelegateCall.createOrganization "" "" ∈
      (handleDev true userEnv
        { blankReq DevRoute.createOrg with bodyName := some "" }).2 := by
  refine ⟨by decide, by decide, by decide, by decide⟩

/-- C8 as amended: create-organization performs no façade-side validation
of the name. An authenticated request with the name absent fails with HTTP
500 — the untyped TypeError thrown while deriving the slug, mapped by the
catch-all — without delegating; a request with any present name, the empty
string included, is delegated to the Organization Directory as-is together
with the derived slug. -/
theorem createOrg_unvalidated_behavior (env : Env) (req : DevRequest) (sess : Session)
    (hs : env.session = some sess) (hr : req.route = DevRoute.createOrg) :
    (req.bodyName = none →
      (handleDev true env req).1.status = 500 ∧
      (handleDev true env req).2 = [DelegateCall.getSession])
    ∧ (∀ name, req.bodyName = some name →
      (handleDev true env req).1 = okResponse (ResBody.orgCreated env.orgResult) ∧
      (handleDev true env req).2 =
        [DelegateCall.getSession,
         DelegateCall.createOrganization name (deriveSlug name)]) := by
  have hpath : ¬ routePath req = ["dev", "jwks.json"] := by
    intro hc
    have h2 := (routePath_eq_jwks_iff req).mp hc
    rw [hr] at h2
    cases h2
  have hd : handleDev true env req = handleCreateOrg env req := by
    simp [handleDev, hpath, requireUser, hs, dispatch, hr]
  constructor
  · intro hn
    rw [hd]
    unfold handleCreateOrg
    simp [requireUser, hs, hn, errResponse, Err.httpStatus]
  · intro name hn
    rw [hd]
    unfold handleCreateOrg
    simp [requireUser, hs, hn, okResponse]

/-- Witness for C8 (amended): a present name is delegated together with its
derived slug. -/
theorem createOrg_unvalidated_behavior_witness :
    (handleDev true userEnv
        { blankReq DevRoute.createOrg with bodyName := some "Acme Inc" }).2 =
      [DelegateCall.getSession,
       DelegateCall.createOrganization "Acme Inc" (deriveSlug "Acme Inc")] :=
  ((createOrg_unvalidated_behavior userEnv
      { blankReq DevRoute.createOrg with bodyName := some "Acme Inc" } devUser rfl rfl).2
    "Acme Inc" rfl).2

/-- Every entry of `setHeader hs k v` either has key `k` or is an entry of
`hs`. -/
theorem setHeader_key_cases (hs : List (String × String)) (k v : String) :
    ∀ kv ∈ setHeader hs k v, kv.1 = k ∨ kv ∈ hs := by
  intro kv hkv
  unfold setHeader at hkv
  split at hkv
  · obtain ⟨kv0, hkv0, heq⟩ := List.mem_map.mp hkv
    by_cases h0 : (kv0.1 == k) = true
    · rw [if_pos h0] at heq
      left; rw [← heq]
    · rw [if_neg h0] at heq
      right; rw [← heq]; exact hkv0
  · rcases List.mem_append.mp hkv with h | h
    · right; exact h
    · left; rw [List.mem_singleton.mp h]

/-- `setHeader hs k v` always holds key `k`. -/
theorem setHeader_hasKey_self (hs : List (String × String)) (k v : String) :
    (setHeader hs k v).any (fun kv => kv.1 == k) = true := by
  unfold setHeader
  split
  · rename_i h
    rw [List.any_eq_true] at h ⊢
    obtain ⟨kv0, hkv0, hk0⟩ := h
    refine ⟨(k, v), List.mem_map.mpr ⟨kv0, hkv0, by rw [if_pos hk0]⟩, by simp⟩
  · rw [List.any_eq_true]
    exact ⟨(k, v), List.mem_append.mpr (Or.inr (List.mem_singleton.mpr rfl)), by simp⟩

/-- `setHeader` keeps every key that was already present. -/
theorem setHeader_hasKey_mono (hs : List (String × String)) (k v q : String)
    (h : hs.any (fun kv => kv.1 == q) = true) :
    (setHeader hs k v).any (fun kv => kv.1 == q) = true := by
  unfold setHeader
  split
  · rw [List.any_eq_true] at h ⊢
    obtain ⟨kv0, hkv0, hk0⟩ := h
    by_cases he : (kv0.1 == k) = true
    · refine ⟨(k, v), List.mem_map.mpr ⟨kv0, hkv0, by rw [if_pos he]⟩, ?_⟩
      have h1 : kv0.1 = k := by simpa using he
      have h2 : kv0.1 = q := by simpa using hk0
      simp [← h1, h2]
    · exact ⟨kv0, List.mem_map.mpr ⟨kv0, hkv0, by rw [if_neg he]⟩, hk0⟩
  · rw [List.any_eq_true] at h ⊢
    obtain ⟨kv0, hkv0, hk0⟩ := h
    exact ⟨kv0, List.mem_append.mpr (Or.inl hkv0), hk0⟩

/-- With a key `q` different from the assigned key, `setHeader` does not
change what a lookup of `q` sees. -/
theorem setHeader_lookup_other (hs : List (String × String)) (k v q : String)
    (hne : k ≠ q) :
    lookupHeader (setHeader hs k v) q = lookupHeader hs q := by
  unfold setHeader lookupHeader
  split
  · rw [List.find?_map]
    have hfun : ((fun kv : String × String => kv.1 == q) ∘
        (fun kv => if kv.1 == k then (k, v) else kv)) = (fun kv => kv.1 == q) := by
      funext kv0
      by_cases h0 : (kv0.1 == k) = true
      · have h1 : kv0.1 = k := by simpa using h0
        simp only [Function.comp, if_pos h0]
        rw [← h1]
      · simp only [Function.comp, if_neg h0]
    rw [hfun]
    cases hfind : hs.find? (fun kv => kv.1 == q) with
    | none => rfl
    | some a =>
        have ha : (a.1 == q) = true := by
          have := List.find?_some hfind
          simpa using this
        have haq : a.1 = q := by simpa using ha
        have hak : (a.1 == k) = false := by
          rw [beq_eq_false_iff_ne, haq]
          exact fun hx => hne hx.symm
        have hak' : a.1 ≠ k := beq_eq_false_iff_ne.mp hak
        simp [hak, hak']
  · rw [List.find?_append]
    have hnone : List.find? (fun kv : String × String => kv.1 == q) [(k, v)] = none := by
      rw [List.find?_cons_of_neg]
      · rfl
      · simp [hne]
    rw [hnone]
    cases hs.find? (fun kv => kv.1 == q) <;> rfl

/-- The cookie side of the `forEach` fold collects exactly the `set-cookie`
values, in order, appended to what was already collected. -/
theorem forEach_cookies (hs : List (String × String)) :
    ∀ p : List (String × String) × List String,
      (hs.foldl forEachStep p).2 = p.2 ++ cookieValues hs := by
  induction hs with
  | nil => intro p; simp [cookieValues]
  | cons kv t ih =>
      intro p
      rw [List.foldl_cons, ih (forEachStep p kv)]
      unfold forEachStep
      by_cases h : (jsToLower kv.1 == "set-cookie") = true
      · rw [if_pos h]
        simp [cookieValues, List.filter_cons, h]
      · rw [if_neg h]
        simp only [Bool.not_eq_true] at h
        simp [cookieValues, List.filter_cons, h]

/-- The single-header side of the fold never acquires a `set-cookie` key. -/
theorem forEach_singles_no_cookie (hs : List (String × String)) :
    ∀ p : List (String × String) × List String,
      (∀ kv ∈ p.1, (jsToLower kv.1 == "set-cookie") = false) →
      ∀ kv ∈ (hs.foldl forEachStep p).1, (jsToLower kv.1 == "set-cookie") = false := by
  induction hs with
  | nil => intro p hp; exact hp
  | cons kv t ih =>
      intro p hp
      rw [List.foldl_cons]
      refine ih (forEachStep p kv) ?_
      unfold forEachStep
      by_cases h : (jsToLower kv.1 == "set-cookie") = true
      · rw [if_pos h]; exact hp
      · rw [if_neg h]
        intro kv' hkv'
        rcases setHeader_key_cases p.1 kv.1 kv.2 kv' hkv' with he | hm
        · rw [he]
          exact Bool.not_eq_true _ ▸ h
        · exact hp kv' hm

/-- The single-header side of the fold keeps every key it already had. -/
theorem forEach_hasKey_mono (hs : List (String × String)) :
    ∀ p : List (String × String) × List String, ∀ q : String,
      p.1.any (fun kv => kv.1 == q) = true →
      ((hs.foldl forEachStep p).1.any (fun kv => kv.1 == q)) = true := by
  induction hs with
  | nil => intro p q h; exact h
  | cons kv t ih =>
      intro p q h
      rw [List.foldl_cons]
      refine ih (forEachStep p kv) q ?_
      unfold forEachStep
      by_cases hck : (jsToLower kv.1 == "set-cookie") = true
      · rw [if_pos hck]; exact h
      · rw [if_neg hck]; exact setHeader_hasKey_mono p.1 kv.1 kv.2 q h

/-- Every non-cookie response header key ends up present on the
single-header side of the fold. -/
theorem forEach_key_present (hs : List (String × String)) :
    ∀ p : List (String × String) × List String, ∀ kv ∈ hs,
      (jsToLower kv.1 == "set-cookie") = false →
      ((hs.foldl forEachStep p).1.any (fun kv2 => kv2.1 == kv.1)) = true := by
  induction hs with
  | nil => intro p kv h; cases h
  | cons kv0 t ih =>
      intro p kv hmem hnc
      rw [List.foldl_cons]
      rcases List.mem_cons.mp hmem with he | ht
      · subst he
        refine forEach_hasKey_mono t (forEachStep p kv) kv.1 ?_
        unfold forEachStep
        rw [if_neg (by rw [hnc]; exact Bool.false_ne_true)]
        exact setHeader_hasKey_self p.1 kv.1 kv.2
      · exact ih (forEachStep p kv0) kv ht hnc

/-- When no processed header carries key `q`, the fold leaves the lookup of
`q` on the single-header side untouched. -/
theorem forEach_lookup_preserved (hs : List (String × String)) :
    ∀ p : List (String × String) × List String, ∀ q : String,
      (∀ kv ∈ hs, kv.1 ≠ q) →
      lookupHeader (hs.foldl forEachStep p).1 q = lookupHeader p.1 q := by
  induction hs with
  | nil => intro p q _; rfl
  | cons kv t ih =>
      intro p q h
      rw [List.foldl_cons,
        ih (forEachStep p kv) q (fun kv' h' => h kv' (List.mem_cons_of_mem _ h'))]
      unfold forEachStep
      by_cases hck : (jsToLower kv.1 == "set-cookie") = true
      · rw [if_pos hck]
      · rw [if_neg hck]
        exact setHeader_lookup_other p.1 kv.1 kv.2 q (h kv (List.mem_cons_self _ _))

/-- C9: for every delegate response through the serverless adapter (on a
non-preflight request), the outbound `multiValueHeaders` carries exactly
the delegate's `Set-Cookie` values as a list of distinct values, in order —
so they are never collapsed into one comma-joined value — and is omitted
when there are none; no `set-cookie` key ever appears among the
single-valued headers, while every non-`set-cookie` delegate header key
does appear there as a single-valued header. -/
theorem setCookie_multivalue_distinct (trusted : List String) (event : NetlifyEvent)
    (res : DelegateResponse) (hm : event.httpMethod ≠ "OPTIONS") :
    ((netlifyHandler trusted event res).multiValueHeaders =
      if (cookieValues res.headers).isEmpty then none
      else some [("Set-Cookie", cookieValues res.headers)])
    ∧ (∀ kv ∈ (netlifyHandler trusted event res).headers,
        (jsToLower kv.1 == "set-cookie") = false)
    ∧ (∀ kv ∈ res.headers, (jsToLower kv.1 == "set-cookie") = false →
        ((netlifyHandler trusted event res).headers.any (fun kv2 => kv2.1 == kv.1)) = true) := by
  have hopt : ¬ (event.httpMethod == "OPTIONS") = true := by
    simpa using hm
  have hbase : ∀ kv ∈ corsBaseHeaders trusted event.originHeader,
      (jsToLower kv.1 == "set-cookie") = false := by
    intro kv hkv
    rcases List.mem_cons.mp hkv with he | hkv2
    · rw [he]
      show (jsToLower "Access-Control-Allow-Origin" == "set-cookie") = false
      decide
    · rw [List.mem_singleton.mp hkv2]
      show (jsToLower "Access-Control-Allow-Credentials" == "set-cookie") = false
      decide
  refine ⟨?_, ?_, ?_⟩
  · unfold netlifyHandler
    rw [if_neg hopt]
    have hc : (res.headers.foldl forEachStep
        (corsBaseHeaders trusted event.originHeader, [])).2 = cookieValues res.headers := by
      rw [forEach_cookies]
      rfl
    simp only [hc]
  · unfold netlifyHandler
    rw [if_neg hopt]
    exact forEach_singles_no_cookie res.headers
      (corsBaseHeaders trusted event.originHeader, []) hbase
  · intro kv hkv hnc
    unfold netlifyHandler
    rw [if_neg hopt]
    exact forEach_key_present res.headers
      (corsBaseHeaders trusted event.originHeader, []) kv hkv hnc

/-- Witness for C9: a delegate response with two cookies and one plain
header yields both cookie values, distinct and in order, under the
multi-value mechanism. -/
theorem setCookie_multivalue_distinct_witness :
    (netlifyHandler ["https://a.example"]
        { httpMethod := "POST", originHeader := some "https://a.example" }
        { status := 200,
          headers := [("set-cookie", "a=1"), ("content-type", "application/json"),
                      ("set-cookie", "b=2")],
          bodyText := "ok" }).multiValueHeaders =
      some [("Set-Cookie", ["a=1", "b=2"])] := by
  rw [(setCookie_multivalue_distinct ["https://a.example"]
      { httpMethod := "POST", originHeader := some "https://a.example" }
      { status := 200,
        headers := [("set-cookie", "a=1"), ("content-type", "application/json"),
                    ("set-cookie", "b=2")],
        bodyText := "ok" } (by decide)).1]
  decide

/-- The parsed trusted-origin list of env.ts never contains the empty
string (`filter(Boolean)` removes it). -/
theorem empty_not_mem_parseTrustedOrigins (cfg : String) :
    "" ∉ parseTrustedOrigins cfg := fun h => by
  have := List.of_mem_filter h
  simp at this

/-- C10: through the serverless adapter (with the trusted-origin list as
env.ts parses it from configuration), the `Access-Control-Allow-Origin`
response header always equals `allowOrigin` of the request origin, which
equals the request's origin exactly when that origin is in the trusted
list, and otherwise — origin absent, empty, or unlisted — equals the first
trusted origin, or `"*"` when the configured list is empty. -/
theorem acao_origin_policy (cfg : String) (event : NetlifyEvent) (res : DelegateResponse)
    (hres : ∀ kv ∈ res.headers, kv.1 ≠ "Access-Control-Allow-Origin") :
    (lookupHeader (netlifyHandler (parseTrustedOrigins cfg) event res).headers
        "Access-Control-Allow-Origin" =
      some (allowOrigin (parseTrustedOrigins cfg) event.originHeader))
    ∧ (∀ o, event.originHeader = some o →
      allowOrigin (parseTrustedOrigins cfg) (some o) =
        if o ∈ parseTrustedOrigins cfg then o
        else ((parseTrustedOrigins cfg).head?).getD "*")
    ∧ (event.originHeader = none →
      allowOrigin (parseTrustedOrigins cfg) none =
        ((parseTrustedOrigins cfg).head?).getD "*") := by
  have hlookbase : lookupHeader (corsBaseHeaders (parseTrustedOrigins cfg) event.originHeader)
      "Access-Control-Allow-Origin" =
      some (allowOrigin (parseTrustedOrigins cfg) event.originHeader) := rfl
  refine ⟨?_, ?_, fun _ => rfl⟩
  · unfold netlifyHandler
    by_cases hopt : (event.httpMethod == "OPTIONS") = true
    · rw [if_pos hopt]
      exact rfl
    · rw [if_neg hopt]
      rw [forEach_lookup_preserved res.headers
        (corsBaseHeaders (parseTrustedOrigins cfg) event.originHeader, [])
        "Access-Control-Allow-Origin" hres]
      exact hlookbase
  · intro o _
    simp only [allowOrigin]
    by_cases ho : o = ""
    · subst ho
      simp [empty_not_mem_parseTrustedOrigins cfg]
    · rw [if_neg ho]
      by_cases hmem : o ∈ parseTrustedOrigins cfg
      · rw [if_pos hmem]
        have hc : (parseTrustedOrigins cfg).contains o = true := by
          simp [List.contains, hmem]
        rw [if_pos hc]
      · rw [if_neg hmem]
        have hc : ¬ ((parseTrustedOrigins cfg).contains o = true) := by
          simp [List.contains, hmem]
        rw [if_neg hc]

/-- Witness for C10: with the configuration string holding two origins, a
request from the second origin gets it echoed; a request from an unlisted
origin gets the first configured origin. -/
theorem acao_origin_policy_witness :
    (lookupHeader (netlifyHandler (parseTrustedOrigins "https://a.example, https://b.example")
        { httpMethod := "POST", originHeader := some "https://b.example" }
        { status := 200, headers := [("content-type", "application/json")],
          bodyText := "ok" }).headers
      "Access-Control-Allow-Origin" =
      some (allowOrigin (parseTrustedOrigins "https://a.example, https://b.example")
        (some "https://b.example")))
    ∧ allowOrigin (parseTrustedOrigins "https://a.example, https://b.example")
        (some "https://b.example") = "https://b.example"
    ∧ allowOrigin (parseTrustedOrigins "https://a.example, https://b.example")
        (some "https://evil.example") = "https://a.example" :=
  ⟨(acao_origin_policy "https://a.example, https://b.example"
      { httpMethod := "POST", originHeader := some "https://b.example" }
      { status := 200, headers := [("content-type", "application/json")],
        bodyText := "ok" } (by decide)).1,
   by decide, by decide⟩

end AuthCore
